import Mathlib

/-!
# Verification of the Azure snapshot lifecycle manager against its specification

The visible repository is the dashboard presentation layer (`src/page.tsx`);
the backend engine (Inventory Index, Lock Coordinator, Retention Policy
Evaluator, Deletion Orchestrator, Summary Aggregator, Live Sync Publisher) is
specified in `spec.md` but its code is not part of the visible sources, so the
backend components below are modelled from the spec's words.  Client-side
definitions (`handleSearch`, `sizeDistributionData`, the WebSocket message
handler) are translated directly from `src/page.tsx`.
-/

namespace SnapSnd

/-- Provider snapshot status values, mirrored verbatim. -/
inductive Status where
  | creating
  | ready
  | error
deriving DecidableEq, Repr

def Status.name : Status → String
  | .creating => "creating"
  | .ready => "ready"
  | .error => "error"

/-- A snapshot record as held by the Inventory Index: identity, name,
resource group, subscription id, creation timestamp (in days), size in GB,
status and favorite flag. -/
structure Snapshot where
  id : String
  name : String
  resourceGroup : String
  subscriptionId : String
  timeCreated : Nat
  sizeGB : Nat
  status : Status
  favorite : Bool
deriving DecidableEq, Repr

/-- The Inventory Index: in-memory structure owning the snapshot records,
source of truth for summaries and search. -/
structure InventoryIndex where
  snapshots : List Snapshot
deriving DecidableEq, Repr

/-! ## Environment classification (Retention Policy Evaluator, spec §4.1) -/

inductive EnvClass where
  | production
  | nonProduction
deriving DecidableEq, Repr

/-- The configurable pattern set used for environment classification
(the README points at `is_non_prod()` / `is_prod()` naming conventions). -/
structure PatternConfig where
  nonProdPatterns : List String
  prodPatterns : List String

/-- `occursIn p s` is true when pattern `p` occurs as a substring of `s`:
some suffix of `s` starts with `p`. -/
def occursIn (p s : String) : Bool :=
  s.toList.tails.any (fun t => p.toList.isPrefixOf t)

def matchesAny (pats : List String) (s : String) : Bool :=
  pats.any (fun p => occursIn p s)

/-- Modelled from the spec: "Environment classification is a pure function of
resource-group/subscription naming conventions (configurable pattern set) —
snapshots whose classification is ambiguous are treated as production (the
stricter, safer threshold) by default" (§4.1).  A name is unambiguously
non-production when it matches a non-production pattern and no production
pattern; every other case (matches neither set, or both) is ambiguous and
classifies as production. -/
def environmentClass (cfg : PatternConfig) (rg sub : String) : EnvClass :=
  let np := matchesAny cfg.nonProdPatterns rg || matchesAny cfg.nonProdPatterns sub
  let pr := matchesAny cfg.prodPatterns rg || matchesAny cfg.prodPatterns sub
  if np && !pr then .nonProduction else .production

/-- Environment class of a snapshot, derived from its resource-group and
subscription names only. -/
def Snapshot.envClass (cfg : PatternConfig) (s : Snapshot) : EnvClass :=
  environmentClass cfg s.resourceGroup s.subscriptionId

/-- A snapshot's classification is ambiguous when its names match neither
pattern set, or both pattern sets. -/
def ambiguousClass (cfg : PatternConfig) (s : Snapshot) : Prop :=
  (matchesAny cfg.nonProdPatterns s.resourceGroup
      || matchesAny cfg.nonProdPatterns s.subscriptionId)
    = (matchesAny cfg.prodPatterns s.resourceGroup
      || matchesAny cfg.prodPatterns s.subscriptionId)

instance (cfg : PatternConfig) (s : Snapshot) : Decidable (ambiguousClass cfg s) := by
  unfold ambiguousClass; infer_instance

/-! ## Summary Aggregator (spec §4.4) -/

/-- An optional creation-time window `[fromTime, toTime]`, in the same day
units as `Snapshot.timeCreated`. -/
structure Window where
  fromTime : Nat
  toTime : Nat
deriving DecidableEq, Repr

/-- Modelled from the spec: fixed categorical age ranges
"0–7d, 8–30d, 31–90d, 90d+" (§4.4). -/
def ageBucket (now created : Nat) : String :=
  let d := now - created
  if d ≤ 7 then "0-7" else if d ≤ 30 then "8-30" else if d ≤ 90 then "31-90" else "90+"

/-- Modelled from the spec: fixed size ranges "0–1GB, 1–10GB, 10–100GB,
100+GB" (§4.4); the bucket keys are the ones the dashboard reads
(`src/page.tsx`, `sizeDistributionData`). -/
def sizeBucket (gb : Nat) : String :=
  if gb ≤ 1 then "0-1" else if gb ≤ 10 then "1-10" else if gb ≤ 100 then "10-100" else "100+"

def ageBucketKeys : List String := ["0-7", "8-30", "31-90", "90+"]

def sizeBucketKeys : List String := ["0-1", "1-10", "10-100", "100+"]

def statusKeys : List String := ["creating", "ready", "error"]

/-- A recomputed summary: total count, total size, and the three
distribution maps (bucket key → count), plus the optional window bounds. -/
structure SummarySnapshot where
  totalCount : Nat
  totalSizeGB : Nat
  ageDistribution : List (String × Nat)
  statusDistribution : List (String × Nat)
  sizeDistribution : List (String × Nat)
  window : Option Window
deriving DecidableEq, Repr

def inWindow (w : Option Window) (t : Nat) : Bool :=
  match w with
  | none => true
  | some w => decide (w.fromTime ≤ t) && decide (t ≤ w.toTime)

/-- The snapshots of the index in scope for one summary request: those of the
requested subscription whose creation time lies in the optional window. -/
def scopedSnapshots (idx : InventoryIndex) (sub : String) (w : Option Window) :
    List Snapshot :=
  idx.snapshots.filter (fun s => s.subscriptionId == sub && inWindow w s.timeCreated)

/-- Count, per bucket key, of the scoped snapshots falling in that bucket. -/
def distribution (keys : List String) (bucketOf : Snapshot → String)
    (snaps : List Snapshot) : List (String × Nat) :=
  keys.map (fun k => (k, (snaps.filter (fun s => bucketOf s == k)).length))

/-- Modelled from the spec: the Summary Aggregator "recompute[s] a
SummarySnapshot from the Inventory Index for a given subscription and optional
creation-time window [from, to]", "deterministic and side-effect-free" (§4.4).
The index is threaded through explicitly so that side-effect-freedom is a
provable statement: the returned index is the state after the call. -/
def summarize (idx : InventoryIndex) (now : Nat) (sub : String) (w : Option Window) :
    SummarySnapshot × InventoryIndex :=
  let snaps := scopedSnapshots idx sub w
  ({ totalCount := snaps.length
     totalSizeGB := (snaps.map Snapshot.sizeGB).sum
     ageDistribution := distribution ageBucketKeys (fun s => ageBucket now s.timeCreated) snaps
     statusDistribution := distribution statusKeys (fun s => s.status.name) snaps
     sizeDistribution := distribution sizeBucketKeys (fun s => sizeBucket s.sizeGB) snaps
     window := w }, idx)

/-! ## Dashboard client (`src/page.tsx`) -/

/-- JavaScript's `String.prototype.trim` removes leading and trailing
whitespace; this models the whitespace characters a search query can
realistically contain. -/
def isJsWhitespace (c : Char) : Bool :=
  c == ' ' || c == '\t' || c == '\n' || c == '\r'

/-- `searchQuery.trim()` as used in `handleSearch` (`src/page.tsx:171`). -/
def jsTrim (s : String) : String :=
  String.mk (((s.toList.dropWhile isJsWhitespace).reverse.dropWhile isJsWhitespace).reverse)

/-- One issued `searchSnapshots(query, subscription)` request. -/
structure SearchRequest where
  query : String
  subscription : String
deriving DecidableEq, Repr

/-- `handleSearch` (`src/page.tsx:169-179`): if the trimmed query is empty it
returns immediately, issuing no request and leaving `searchResults` unchanged;
otherwise it calls `searchSnapshots` and stores the results.  The second
component is the list of requests the handler issued. -/
def handleSearch (searchSnapshotsApi : String → String → List Snapshot)
    (searchQuery selectedSubscription : String) (searchResults : List Snapshot) :
    List Snapshot × List SearchRequest :=
  if jsTrim searchQuery == "" then
    (searchResults, [])
  else
    (searchSnapshotsApi searchQuery selectedSubscription,
      [{ query := searchQuery, subscription := selectedSubscription }])

/-- `m[k] || 0` on a JS object modelled as an association list: a missing key
(and a stored 0) reads as 0. -/
def lookupOr0 (m : List (String × Nat)) (k : String) : Nat :=
  match m.lookup k with
  | some v => v
  | none => 0

/-- `sizeDistributionData` (`src/page.tsx:228-233`): the four fixed buckets
rendered in the size chart, each defaulting to 0 via `|| 0` when the key is
absent from `summary.sizeDistribution`; `[]` when there is no summary. -/
def sizeDistributionData (summary : Option SummarySnapshot) : List (String × Nat) :=
  match summary with
  | none => []
  | some s =>
      [("0-1 GB", lookupOr0 s.sizeDistribution "0-1"),
       ("1-10 GB", lookupOr0 s.sizeDistribution "1-10"),
       ("10-100 GB", lookupOr0 s.sizeDistribution "10-100"),
       ("100+ GB", lookupOr0 s.sizeDistribution "100+")]

/-! ## Live Sync Publisher and the client push channel (spec §4.5, §6;
`src/page.tsx` `connectWebSocket`) -/

/-- A recent-activity entry as rendered by the dashboard. -/
structure Activity where
  action : String
  timestamp : String
deriving DecidableEq, Repr

/-- The dashboard component state touched by the push channel and its
neighbours (`src/page.tsx:25-36`). -/
structure DashState where
  summary : Option SummarySnapshot
  recentActivity : List Activity
  searchResults : List Snapshot
  favoriteSnapshots : List Snapshot
deriving DecidableEq, Repr

/-- A WebSocket message as parsed by the client. -/
inductive WsMessage where
  | dashboardUpdate (summary : SummarySnapshot) (recentActivity : List Activity)
  | other (tag : String)
deriving DecidableEq, Repr

/-- The client's `onmessage` handler (`src/page.tsx:72-78`): a
`"dashboardUpdate"` message sets exactly the `summary` and `recentActivity`
fields; any other message leaves the state alone. -/
def onWsMessage (st : DashState) : WsMessage → DashState
  | .dashboardUpdate s a => { st with summary := some s, recentActivity := a }
  | .other _ => st

/-- Publisher-side subscriber state machine, modelled from the spec:
"`Connected → Subscribed(subscriptionId) → Disconnected (terminal)`" (§4.5). -/
inductive SubState where
  | connected
  | subscribed (subscriptionId : String)
  | disconnected
deriving DecidableEq, Repr

/-- Events seen by one subscriber connection: the client's subscribe message
(`src/page.tsx:68`), a disconnect, or a mutation of the Inventory Index for
some subscription with the freshly recomputed summary and activity list. -/
inductive PushEvent where
  | subscribe (subscriptionId : String)
  | disconnect
  | indexMutation (subscriptionId : String) (summary : SummarySnapshot)
      (recentActivity : List Activity)
deriving DecidableEq, Repr

/-- Modelled from the spec: the Live Sync Publisher delivers a
`dashboardUpdate` to every subscriber whose filter matches whenever the index
mutates, and "an update received before `Subscribed` is dropped" (§4.5);
the delivered message is applied by the client's `onmessage` handler
(`src/page.tsx:72-78`).  One step of the combined subscriber/client pair. -/
def pushStep : SubState × DashState → PushEvent → SubState × DashState
  | (st, d), .subscribe sid =>
      match st with
      | .connected => (.subscribed sid, d)
      | _ => (st, d)
  | (_, d), .disconnect => (.disconnected, d)
  | (st, d), .indexMutation sub sum act =>
      match st with
      | .subscribed sid =>
          if sid == sub then (st, onWsMessage d (.dashboardUpdate sum act)) else (st, d)
      | _ => (st, d)

/-! ## Lock Coordinator (spec §4.2) and Deletion Orchestrator (spec §4.3) -/

/-- A call made against the cloud provider during a deletion operation. -/
inductive ProviderCall where
  | removeLock (rg : String)
  | restoreLock (rg : String)
  | deleteSnapshot (id : String)
deriving DecidableEq, Repr

/-- The adjudicated outcome of one provider deletion call, after the bounded
retry-with-backoff wrapper has classified transient errors (§4.3, §7):
success, a transient error that exhausted its retries, an authorization error
(failed immediately, no retry), not-found (success-equivalent), or
abandonment by mid-flight cancellation. -/
inductive DeleteResult where
  | ok
  | transientError (msg : String)
  | authError (msg : String)
  | notFound
  | cancelled
deriving DecidableEq, Repr

inductive Outcome where
  | succeeded
  | failed
  | skipped
deriving DecidableEq, Repr

/-- One immutable per-item record produced by the Deletion Orchestrator:
snapshot id, outcome, nullable failure reason (§3). -/
structure DeletionAttempt where
  snapshotId : String
  outcome : Outcome
  failureReason : Option String
deriving DecidableEq, Repr

/-- The provider boundary as the orchestrator observes it: which resource
groups carry a `CanNotDelete` lock, and the per-item result of an issued
deletion. -/
structure Provider where
  hasCanNotDeleteLock : String → Bool
  deleteResult : String → DeleteResult

/-- The DeletionAttempt recorded for one snapshot: not-found is
success-equivalent and recorded as skipped (§7); a cancelled in-flight call is
abandoned and recorded as failed (§5); errors record their reason. -/
def attemptOf (prov : Provider) (s : Snapshot) : DeletionAttempt :=
  match prov.deleteResult s.id with
  | .ok => ⟨s.id, .succeeded, none⟩
  | .notFound => ⟨s.id, .skipped, none⟩
  | .transientError m => ⟨s.id, .failed, some m⟩
  | .authError m => ⟨s.id, .failed, some m⟩
  | .cancelled => ⟨s.id, .failed, some "cancelled"⟩

/-- Modelled from the spec: `withUnlocked(resourceGroup, operation)` (§4.2) —
if the group carries a `CanNotDelete` lock, remove it, run the operation, then
restore the lock "regardless of whether `operation` succeeded, failed, or was
cancelled" (restoration is not cancellable, §5); if absent, run the operation
with no lock churn.  The operation is its result value paired with the
provider calls it makes; the returned trace brackets those calls with the
coordinator's lock calls. -/
def withUnlocked {α : Type} (rg : String) (hasLock : Bool)
    (op : α × List ProviderCall) : α × List ProviderCall :=
  if hasLock then
    (op.1, ProviderCall.removeLock rg :: op.2 ++ [ProviderCall.restoreLock rg])
  else op

/-- Partition a list of snapshots by resource group, keys in order of first
occurrence, each group keeping the input order (§4.3 "partition eligible
snapshots by resource group"). -/
def groupByRG : List Snapshot → List (String × List Snapshot)
  | [] => []
  | s :: rest =>
      (s.resourceGroup, s :: rest.filter (fun t => t.resourceGroup == s.resourceGroup)) ::
        groupByRG (rest.filter (fun t => t.resourceGroup != s.resourceGroup))
termination_by l => l.length
decreasing_by
  simp only [List.length_cons]
  exact Nat.lt_succ_of_le (List.length_filter_le _ _)

/-- One group's deletion calls and their per-item records: each snapshot of
the group yields exactly one issued deletion and one DeletionAttempt. -/
def deleteGroup (prov : Provider) (snaps : List Snapshot) :
    List DeletionAttempt × List ProviderCall :=
  (snaps.map (attemptOf prov), snaps.map (fun s => ProviderCall.deleteSnapshot s.id))

/-- Modelled from the spec: the Deletion Orchestrator (§4.3) — partition the
eligible snapshots by resource group; for each group acquire the lock scope
once via the Lock Coordinator, issue the group's deletion calls (one
DeletionAttempt each, isolated failure domains), and close the scope after
all the group's attempts complete.  Returns the complete sequence of
DeletionAttempt records together with the trace of provider calls.  The
global concurrency bound N schedules the calls but changes neither which
calls occur nor the per-group remove → operate → restore bracketing, which is
what the verified properties concern. -/
def orchestrate (prov : Provider) (eligible : List Snapshot) :
    List DeletionAttempt × List ProviderCall :=
  (groupByRG eligible).foldr
    (fun g acc =>
      let r := withUnlocked g.1 (prov.hasCanNotDeleteLock g.1) (deleteGroup prov g.2)
      (r.1 ++ acc.1, r.2 ++ acc.2))
    ([], [])

/-- Number of lock-removal calls for a given resource group in a trace. -/
def countRemoves (rg : String) (cs : List ProviderCall) : Nat :=
  cs.countP (fun c => match c with | .removeLock r => r == rg | _ => false)

/-- Number of lock-restoration calls for a given resource group in a trace. -/
def countRestores (rg : String) (cs : List ProviderCall) : Nat :=
  cs.countP (fun c => match c with | .restoreLock r => r == rg | _ => false)

/-! ## Retention Policy Evaluator (spec §4.1) and the delete-old endpoint
(spec §6; `src/page.tsx` `handleDeleteOldSnapshots`) -/

/-- Configuration mapping environment class to an age threshold in days
(§3 RetentionThreshold). -/
structure RetentionThreshold where
  productionDays : Nat
  nonProductionDays : Nat
deriving DecidableEq, Repr

def thresholdFor (t : RetentionThreshold) : EnvClass → Nat
  | .production => t.productionDays
  | .nonProduction => t.nonProductionDays

/-- Modelled from the spec: the Retention Policy Evaluator (§4.1) — given
the Inventory Index, a subscription scope and per-class age thresholds,
produce the ordered sequence of snapshots eligible for deletion, where
eligibility is `now - creationTimestamp >= threshold(environmentClass)`. -/
def eligibleSnapshots (cfg : PatternConfig) (t : RetentionThreshold)
    (idx : InventoryIndex) (now : Nat) (sub : String) : List Snapshot :=
  idx.snapshots.filter (fun s =>
    s.subscriptionId == sub
      && decide (thresholdFor t (s.envClass cfg) ≤ now - s.timeCreated))

/-- The structured outcome of the delete-old-snapshots command (§6). -/
structure DeleteOldResult where
  deleted : List String
  failed : List String
deriving DecidableEq, Repr

/-- Modelled from the spec: the command endpoint "delete old snapshots
(subscription, ageInDays) → `{deleted: [ids], failed: [ids]}`" (§6); the
orchestrator's DeletionAttempt records are "partitioned by caller into
succeeded/failed for reporting" (§4.3), with skipped (not-found) items
success-equivalent (§7) so that nothing is silently swallowed.  The single
ageInDays from the dashboard applies to both environment classes. -/
def deleteOldSnapshots (prov : Provider) (cfg : PatternConfig)
    (idx : InventoryIndex) (now : Nat) (sub : String) (ageInDays : Nat) :
    DeleteOldResult :=
  let attempts := (orchestrate prov
    (eligibleSnapshots cfg ⟨ageInDays, ageInDays⟩ idx now sub)).1
  { deleted := (attempts.filter (fun a => a.outcome != .failed)).map
      DeletionAttempt.snapshotId
    failed := (attempts.filter (fun a => a.outcome == .failed)).map
      DeletionAttempt.snapshotId }

/-- The toast message `handleDeleteOldSnapshots` builds from the structured
result (`src/page.tsx:159`), reading `result.deleted` and `result.failed` as
arrays of ids. -/
def deleteOldToastMessage (r : DeleteOldResult) : String :=
  "Deleted " ++ toString r.deleted.length ++ " old snapshots. "
    ++ toString r.failed.length ++ " failed."

/-- Concatenation of the per-group snapshot lists of a grouping, used to
relate the grouped traversal back to the flat input. -/
def joinGroups (gs : List (String × List Snapshot)) : List Snapshot :=
  gs.foldr (fun g acc => g.2 ++ acc) []

/-! ## Concrete fixtures used by the witness theorems -/

def wSnap : Snapshot := ⟨"id1", "snap1", "rg-alpha", "sub-alpha", 100, 5, .ready, false⟩

def wIdx : InventoryIndex := ⟨[wSnap]⟩

def wCfg : PatternConfig := ⟨["dev", "test"], ["prod"]⟩

def wSummary : SummarySnapshot := ⟨1, 5, [], [], [("0-1", 1)], none⟩

/-! ## Helper lemmas -/

/-- The Lock Coordinator's scope returns the wrapped operation's result value
unchanged. -/
theorem withUnlocked_fst {α : Type} (rg : String) (b : Bool) (op : α × List ProviderCall) :
    (withUnlocked rg b op).1 = op.1 := by
  unfold withUnlocked; split <;> rfl

/-- Grouping by resource group neither drops nor duplicates snapshots: the
concatenation of the groups is a permutation of the input. -/
theorem groupByRG_join_perm (l : List Snapshot) :
    List.Perm (joinGroups (groupByRG l)) l := by
  induction l using groupByRG.induct with
  | case1 => simp [groupByRG, joinGroups]
  | case2 s rest ih =>
      rw [groupByRG]
      simp only [joinGroups, List.foldr_cons] at ih ⊢
      refine List.Perm.trans ?_
        (List.Perm.cons s
          (List.filter_append_perm (fun t => t.resourceGroup == s.resourceGroup) rest))
      simp only [List.cons_append]
      refine List.Perm.cons s (List.Perm.append_left _ ?_)
      simpa [bne] using ih

/-- Each recorded attempt carries the id of the snapshot it was made for. -/
theorem attemptOf_snapshotId (prov : Provider) (s : Snapshot) :
    (attemptOf prov s).snapshotId = s.id := by
  unfold attemptOf; split <;> rfl

/-- The orchestrator's attempt sequence is the grouped traversal's snapshots,
one attempt each. -/
theorem orchestrate_fst (prov : Provider) (l : List Snapshot) :
    (orchestrate prov l).1 = (joinGroups (groupByRG l)).map (attemptOf prov) := by
  unfold orchestrate joinGroups
  induction groupByRG l with
  | nil => rfl
  | cons g gs ih =>
      simp only [List.foldr_cons, List.map_append]
      rw [← ih]
      show (withUnlocked g.1 _ (deleteGroup prov g.2)).1 ++ _ = _
      rw [withUnlocked_fst]
      rfl

/-- Issued deletion calls are never lock removals. -/
theorem countRemoves_deletes (rg : String) (snaps : List Snapshot) :
    countRemoves rg (snaps.map (fun s => ProviderCall.deleteSnapshot s.id)) = 0 := by
  unfold countRemoves
  rw [List.countP_eq_zero]
  intro c hc
  obtain ⟨s, _, rfl⟩ := List.mem_map.mp hc
  simp

/-- Issued deletion calls are never lock restorations. -/
theorem countRestores_deletes (rg : String) (snaps : List Snapshot) :
    countRestores rg (snaps.map (fun s => ProviderCall.deleteSnapshot s.id)) = 0 := by
  unfold countRestores
  rw [List.countP_eq_zero]
  intro c hc
  obtain ⟨s, _, rfl⟩ := List.mem_map.mp hc
  simp

/-- Within one lock scope, removals and restorations for any resource group
balance, whatever the group's deletion calls did. -/
theorem withUnlocked_balance (prov : Provider) (rg g1 : String) (b : Bool)
    (snaps : List Snapshot) :
    countRestores rg (withUnlocked g1 b (deleteGroup prov snaps)).2
      = countRemoves rg (withUnlocked g1 b (deleteGroup prov snaps)).2 := by
  unfold withUnlocked
  split
  · show countRestores rg (ProviderCall.removeLock g1 ::
        ((deleteGroup prov snaps).2 ++ [ProviderCall.restoreLock g1])) = _
    have hr := countRestores_deletes rg snaps
    have hm := countRemoves_deletes rg snaps
    unfold countRestores at hr
    unfold countRemoves at hm
    unfold countRestores countRemoves
    simp only [deleteGroup, List.countP_cons, List.countP_append, hr, hm]
    simp
  · show countRestores rg (deleteGroup prov snaps).2 = _
    simp [deleteGroup, countRestores_deletes, countRemoves_deletes]

/-- Filtering a list by a predicate and by its negation partitions its
length. -/
theorem length_filter_partition {α : Type} (p : α → Bool) (l : List α) :
    (l.filter (fun a => !p a)).length + (l.filter p).length = l.length := by
  have h := (List.filter_append_perm p l).length_eq
  rw [List.length_append] at h
  omega

/-! ## Claim theorems -/

/-- Claim C1: for every resource group touched by a deletion operation, the
number of lock-restore calls in the orchestrated trace equals the number of
lock-remove calls.  The provider is universally quantified, so this holds in
particular for providers whose per-item results are errors or mid-flight
cancellations: every lock the coordinator removed is restored exactly once by
the end of the operation. -/
theorem lock_remove_restore_balanced (prov : Provider) (eligible : List Snapshot)
    (rg : String) :
    countRestores rg (orchestrate prov eligible).2
      = countRemoves rg (orchestrate prov eligible).2 := by
  unfold orchestrate
  induction groupByRG eligible with
  | nil => rfl
  | cons g gs ih =>
      simp only [List.foldr_cons]
      show countRestores rg ((withUnlocked g.1 (prov.hasCanNotDeleteLock g.1)
          (deleteGroup prov g.2)).2 ++ _) = _
      have h1 := withUnlocked_balance prov rg g.1 (prov.hasCanNotDeleteLock g.1) g.2
      unfold countRestores countRemoves at h1 ih ⊢
      rw [List.countP_append, List.countP_append, h1, ih]

/-- Claim C2: for every deletion batch, the number of DeletionAttempt records
in the result equals the number of eligible snapshot identities, and the
recorded snapshot ids are a permutation of the input ids — no item is dropped
and none is duplicated, regardless of per-item success, failure, or skip. -/
theorem deletionAttempts_complete (prov : Provider) (eligible : List Snapshot) :
    (orchestrate prov eligible).1.length = eligible.length
    ∧ List.Perm ((orchestrate prov eligible).1.map DeletionAttempt.snapshotId)
        (eligible.map Snapshot.id) := by
  have hperm : List.Perm ((orchestrate prov eligible).1.map DeletionAttempt.snapshotId)
      (eligible.map Snapshot.id) := by
    rw [orchestrate_fst, List.map_map]
    have hfun : (DeletionAttempt.snapshotId ∘ attemptOf prov) = Snapshot.id := by
      funext s; exact attemptOf_snapshotId prov s
    rw [hfun]
    exact List.Perm.map _ (groupByRG_join_perm eligible)
  refine ⟨?_, hperm⟩
  have hlen := hperm.length_eq
  simpa using hlen

/-- Claim C3: the Summary Aggregator is deterministic and side-effect-free —
a second call against the index state left by a first call returns an
identical SummarySnapshot, and a call leaves the index unchanged. -/
theorem summarize_idempotent (idx : InventoryIndex) (now : Nat) (sub : String)
    (w : Option Window) :
    (summarize idx now sub w).1 = (summarize (summarize idx now sub w).2 now sub w).1
    ∧ (summarize idx now sub w).2 = idx :=
  ⟨rfl, rfl⟩

/-- Claim C4: when the time window excludes every snapshot of the
subscription, the Summary Aggregator returns (it is total, so no error) a
SummarySnapshot whose totalCount is 0 and whose age, status, and size
distribution buckets are all 0. -/
theorem summarize_window_excludes_all (idx : InventoryIndex) (now : Nat) (sub : String)
    (w : Option Window)
    (h : ∀ s ∈ idx.snapshots, s.subscriptionId = sub → inWindow w s.timeCreated = false) :
    (summarize idx now sub w).1.totalCount = 0
    ∧ (summarize idx now sub w).1.totalSizeGB = 0
    ∧ (∀ kv ∈ (summarize idx now sub w).1.ageDistribution, kv.2 = 0)
    ∧ (∀ kv ∈ (summarize idx now sub w).1.statusDistribution, kv.2 = 0)
    ∧ (∀ kv ∈ (summarize idx now sub w).1.sizeDistribution, kv.2 = 0) := by
  have hnil : scopedSnapshots idx sub w = [] := by
    rw [scopedSnapshots, List.filter_eq_nil_iff]
    intro s hs
    simp only [Bool.and_eq_true, beq_iff_eq, not_and]
    intro hsub
    simp [h s hs hsub]
  refine ⟨?_, ?_, ?_, ?_, ?_⟩ <;> simp [summarize, hnil, distribution]

/-- Witness for claim C4: an index whose only snapshot (created at day 100)
falls outside the window [0, 50], summarized at day 200. -/
theorem summarize_window_excludes_all_witness :
    (∀ s ∈ wIdx.snapshots, s.subscriptionId = "sub-alpha" →
      inWindow (some ⟨0, 50⟩) s.timeCreated = false)
    ∧ ((summarize wIdx 200 "sub-alpha" (some ⟨0, 50⟩)).1.totalCount = 0
    ∧ (summarize wIdx 200 "sub-alpha" (some ⟨0, 50⟩)).1.totalSizeGB = 0
    ∧ (∀ kv ∈ (summarize wIdx 200 "sub-alpha" (some ⟨0, 50⟩)).1.ageDistribution, kv.2 = 0)
    ∧ (∀ kv ∈ (summarize wIdx 200 "sub-alpha" (some ⟨0, 50⟩)).1.statusDistribution, kv.2 = 0)
    ∧ (∀ kv ∈ (summarize wIdx 200 "sub-alpha" (some ⟨0, 50⟩)).1.sizeDistribution, kv.2 = 0)) :=
  ⟨by decide, summarize_window_excludes_all wIdx 200 "sub-alpha" (some ⟨0, 50⟩) (by decide)⟩

/-- Claim C5: environment classification is a pure deterministic function of
the snapshot's resource-group and subscription names — two snapshots with the
same names classify identically — and a snapshot whose classification is
ambiguous under the configured pattern set classifies as production. -/
theorem environmentClass_pure (cfg : PatternConfig) (s1 s2 : Snapshot)
    (h1 : s1.resourceGroup = s2.resourceGroup) (h2 : s1.subscriptionId = s2.subscriptionId) :
    s1.envClass cfg = s2.envClass cfg
    ∧ (ambiguousClass cfg s1 → s1.envClass cfg = .production) := by
  constructor
  · unfold Snapshot.envClass; rw [h1, h2]
  · intro ha
    unfold ambiguousClass at ha
    simp only [Snapshot.envClass, environmentClass]
    rw [ha]
    simp [Bool.and_not_self]
    rintro (h | h) hf
    · exact absurd h (by simp [hf])
    · exact h

/-- Witness for claim C5: a snapshot whose names match neither pattern set —
ambiguous — classifies as production; applied to itself for determinism. -/
theorem environmentClass_pure_witness :
    wSnap.resourceGroup = wSnap.resourceGroup ∧ wSnap.subscriptionId = wSnap.subscriptionId
    ∧ ambiguousClass wCfg wSnap ∧ wSnap.envClass wCfg = .production :=
  ⟨rfl, rfl, by decide,
    (environmentClass_pure wCfg wSnap wSnap rfl rfl).2 (by decide)⟩

/-- Claim C6: the delete-old-snapshots endpoint returns a structured outcome
`{deleted, failed}` whose two arrays partition the batch's DeletionAttempt
records: their lengths sum to the attempt count, every listed id is the id of
an attempt with the corresponding outcome (skipped/not-found attempts are
success-equivalent and reported in `deleted`), and every attempt's id appears
in one of the two arrays — fully-, partially-, and un-succeeded batches are
all represented and nothing is silently swallowed. -/
theorem deleteOldSnapshots_structured (prov : Provider) (cfg : PatternConfig)
    (idx : InventoryIndex) (now : Nat) (sub : String) (days : Nat) :
    (deleteOldSnapshots prov cfg idx now sub days).deleted.length
        + (deleteOldSnapshots prov cfg idx now sub days).failed.length
      = (orchestrate prov (eligibleSnapshots cfg ⟨days, days⟩ idx now sub)).1.length
    ∧ (∀ i ∈ (deleteOldSnapshots prov cfg idx now sub days).deleted,
        ∃ a ∈ (orchestrate prov (eligibleSnapshots cfg ⟨days, days⟩ idx now sub)).1,
          a.snapshotId = i ∧ a.outcome ≠ .failed)
    ∧ (∀ i ∈ (deleteOldSnapshots prov cfg idx now sub days).failed,
        ∃ a ∈ (orchestrate prov (eligibleSnapshots cfg ⟨days, days⟩ idx now sub)).1,
          a.snapshotId = i ∧ a.outcome = .failed)
    ∧ (∀ a ∈ (orchestrate prov (eligibleSnapshots cfg ⟨days, days⟩ idx now sub)).1,
        a.snapshotId ∈ (deleteOldSnapshots prov cfg idx now sub days).deleted
          ∨ a.snapshotId ∈ (deleteOldSnapshots prov cfg idx now sub days).failed) := by
  refine ⟨?_, ?_, ?_, ?_⟩
  · simp only [deleteOldSnapshots, List.length_map, bne]
    exact length_filter_partition (fun (a : DeletionAttempt) => a.outcome == Outcome.failed) _
  · intro i hi
    simp only [deleteOldSnapshots, List.mem_map, List.mem_filter] at hi
    obtain ⟨a, ⟨ha, hout⟩, rfl⟩ := hi
    exact ⟨a, ha, rfl, by simpa using hout⟩
  · intro i hi
    simp only [deleteOldSnapshots, List.mem_map, List.mem_filter] at hi
    obtain ⟨a, ⟨ha, hout⟩, rfl⟩ := hi
    exact ⟨a, ha, rfl, by simpa using hout⟩
  · intro a ha
    by_cases hout : a.outcome = Outcome.failed
    · right
      simp only [deleteOldSnapshots, List.mem_map, List.mem_filter]
      exact ⟨a, ⟨ha, by simp [hout]⟩, rfl⟩
    · left
      simp only [deleteOldSnapshots, List.mem_map, List.mem_filter]
      exact ⟨a, ⟨ha, by simpa using hout⟩, rfl⟩

/-- Claim C7: once a subscriber is in `Subscribed(sub)`, an Inventory Index
mutation for `sub` delivers a dashboardUpdate whose application changes
exactly the `summary` and `recentActivity` fields of the displayed state; an
update arriving while still only `Connected` (before the subscribe message)
is dropped; and the subscribe message moves `Connected` to `Subscribed`. -/
theorem pushChannel_update (d : DashState) (sub : String) (sum : SummarySnapshot)
    (act : List Activity) :
    pushStep (.subscribed sub, d) (.indexMutation sub sum act)
      = (.subscribed sub, { d with summary := some sum, recentActivity := act })
    ∧ pushStep (.connected, d) (.indexMutation sub sum act) = (.connected, d)
    ∧ pushStep (.connected, d) (.subscribe sub) = (.subscribed sub, d) := by
  refine ⟨?_, rfl, rfl⟩
  simp [pushStep, onWsMessage]

/-- Claim C8: with zero eligible snapshot identities the Deletion
Orchestrator returns an empty sequence of DeletionAttempt records and an
empty provider-call trace — no lock removal and no deletion is issued. -/
theorem orchestrate_zero_eligible (prov : Provider) :
    orchestrate prov [] = ([], []) := by
  unfold orchestrate
  rw [groupByRG]
  rfl

/-- Claim C9: submitting the dashboard search with a query that is empty or
whitespace-only issues no searchSnapshots request and leaves the displayed
search results unchanged, whatever they were. -/
theorem handleSearch_blank_noop (api : String → String → List Snapshot)
    (q sub : String) (results : List Snapshot) (h : jsTrim q = "") :
    handleSearch api q sub results = (results, []) := by
  unfold handleSearch
  rw [h]
  rfl

/-- Witness for claim C9: a three-space query against a non-empty prior
result list issues no request and keeps the results. -/
theorem handleSearch_blank_noop_witness :
    jsTrim "   " = ""
    ∧ handleSearch (fun _ _ => []) "   " "sub-alpha" [wSnap] = ([wSnap], []) :=
  ⟨by decide, handleSearch_blank_noop (fun _ _ => []) "   " "sub-alpha" [wSnap] (by decide)⟩

/-- Claim C10: the rendered size chart always has exactly the four buckets
"0-1 GB", "1-10 GB", "10-100 GB", "100+ GB", and for any summary whose
sizeDistribution lacks one of the keys the corresponding bucket displays 0
rather than failing or going missing. -/
theorem sizeDistributionData_missing_key (s : SummarySnapshot) (k : String)
    (hk : k ∈ sizeBucketKeys) (h : s.sizeDistribution.lookup k = none) :
    (sizeDistributionData (some s)).map Prod.fst
        = ["0-1 GB", "1-10 GB", "10-100 GB", "100+ GB"]
    ∧ (k ++ " GB", 0) ∈ sizeDistributionData (some s) := by
  refine ⟨by simp [sizeDistributionData], ?_⟩
  have hk' : k = "0-1" ∨ k = "1-10" ∨ k = "10-100" ∨ k = "100+" := by
    simpa [sizeBucketKeys] using hk
  rcases hk' with rfl | rfl | rfl | rfl <;>
    simp [sizeDistributionData, lookupOr0, h]

/-- Witness for claim C10: a summary whose sizeDistribution only has the
"0-1" key renders the "1-10 GB" bucket as 0. -/
theorem sizeDistributionData_missing_key_witness :
    "1-10" ∈ sizeBucketKeys ∧ wSummary.sizeDistribution.lookup "1-10" = none
    ∧ (sizeDistributionData (some wSummary)).map Prod.fst
        = ["0-1 GB", "1-10 GB", "10-100 GB", "100+ GB"]
    ∧ ("1-10" ++ " GB", 0) ∈ sizeDistributionData (some wSummary) :=
  ⟨by decide, by decide,
    (sizeDistributionData_missing_key wSummary "1-10" (by decide) (by decide)).1,
    (sizeDistributionData_missing_key wSummary "1-10" (by decide) (by decide)).2⟩

end SnapSnd
